import Mathlib

/-!
Verification of the Moon_Orbit trajectory program.

The source (`Moon_Orbit.py`) is a small desktop utility: a parameter form
(`create_gui`) collects five numeric values and, on submission,
`calculate_and_plot` evaluates two superposed circular motions at 10000
sample times and renders them.  We embed the numeric core over the real
numbers (the source computes with floating point; the spec's properties are
the exact algebraic ones), and the form/validation control flow as a total
function on parse results.
-/

namespace MoonOrbit

/-- The five scalar parameters read from the form, with the source's
variable names (`AU`, `EM_DIST`, `YEAR_DAYS`, `MONTH_DAYS`, `SCALE` in
`calculate_and_plot`). -/
structure OrbitParameters where
  AU : ℝ
  EM_DIST : ℝ
  YEAR_DAYS : ℝ
  MONTH_DAYS : ℝ
  SCALE : ℝ

/-- Number of sample points: `np.linspace(0, YEAR_DAYS, 10000)` (line 57). -/
def sampleCount : ℕ := 10000

/-- The `i`-th sample time of `np.linspace(0, YEAR_DAYS, 10000)`:
evenly spaced values `YEAR_DAYS / 9999 * i`, so that sample 0 is `0` and
sample 9999 is `YEAR_DAYS`. -/
noncomputable def sampleTime (p : OrbitParameters) (i : ℕ) : ℝ :=
  p.YEAR_DAYS / 9999 * i

/-- The full list of sample times, `t = np.linspace(0, YEAR_DAYS, 10000)`. -/
noncomputable def sampleTimes (p : OrbitParameters) : List ℝ :=
  (List.range 10000).map (sampleTime p)

/-- Source line 58: `omega_e = 2 * np.pi / YEAR_DAYS`. -/
noncomputable def omega_e (p : OrbitParameters) : ℝ :=
  2 * Real.pi / p.YEAR_DAYS

/-- Source line 59: `omega_m = 2 * np.pi / MONTH_DAYS`. -/
noncomputable def omega_m (p : OrbitParameters) : ℝ :=
  2 * Real.pi / p.MONTH_DAYS

/-- Source line 62: `xe = AU * np.cos(omega_e * t)`. -/
noncomputable def xe (p : OrbitParameters) (t : ℝ) : ℝ :=
  p.AU * Real.cos (omega_e p * t)

/-- Source line 63: `ye = AU * np.sin(omega_e * t)`. -/
noncomputable def ye (p : OrbitParameters) (t : ℝ) : ℝ :=
  p.AU * Real.sin (omega_e p * t)

/-- Source line 66: `xm = xe + (EM_DIST * SCALE) * np.cos(omega_m * t)`. -/
noncomputable def xm (p : OrbitParameters) (t : ℝ) : ℝ :=
  xe p t + (p.EM_DIST * p.SCALE) * Real.cos (omega_m p * t)

/-- Source line 67: `ym = ye + (EM_DIST * SCALE) * np.sin(omega_m * t)`. -/
noncomputable def ym (p : OrbitParameters) (t : ℝ) : ℝ :=
  ye p t + (p.EM_DIST * p.SCALE) * Real.sin (omega_m p * t)

/-- Earth position at sample index `i` of the linspace grid. -/
noncomputable def earthSample (p : OrbitParameters) (i : ℕ) : ℝ × ℝ :=
  (xe p (sampleTime p i), ye p (sampleTime p i))

/-- Moon position at sample index `i` of the linspace grid. -/
noncomputable def moonSample (p : OrbitParameters) (i : ℕ) : ℝ × ℝ :=
  (xm p (sampleTime p i), ym p (sampleTime p i))

/-- The full Earth path handed to `ax.plot(xe, ye, ...)` (line 74). -/
noncomputable def earthPath (p : OrbitParameters) : List (ℝ × ℝ) :=
  (List.range sampleCount).map (earthSample p)

/-- The full Moon path handed to `ax.plot(xm, ym, ...)` (line 76). -/
noncomputable def moonPath (p : OrbitParameters) : List (ℝ × ℝ) :=
  (List.range sampleCount).map (moonSample p)

/-- The two paths generated together from one `OrbitParameters` value. -/
structure Trajectory where
  earth : List (ℝ × ℝ)
  moon : List (ℝ × ℝ)

/-- The trajectory generator: the numeric part of `calculate_and_plot`
(lines 57-67). -/
noncomputable def trajectory (p : OrbitParameters) : Trajectory :=
  ⟨earthPath p, moonPath p⟩

/-- The Moon's offset vector from the Earth at time `t`:
`(xm - xe, ym - ye)`. -/
noncomputable def moonOffset (p : OrbitParameters) (t : ℝ) : ℝ × ℝ :=
  (xm p t - xe p t, ym p t - ye p t)

/-- Euclidean Earth-Moon separation at time `t`. -/
noncomputable def earthMoonSep (p : OrbitParameters) (t : ℝ) : ℝ :=
  Real.sqrt ((xm p t - xe p t) ^ 2 + (ym p t - ye p t) ^ 2)

/-- The scenario parameters from the spec's test scenario
(`AU=149600000, EM_DIST=384400, YEAR=365.25, MONTH=27.32, SCALE=50`). -/
noncomputable def demoParams : OrbitParameters :=
  ⟨149600000, 384400, 365.25, 27.32, 50⟩

/-! Form boundary of (`calculate_and_plot`, lines 45-94)

The handler `calculate_and_plot` first does `float(entry.get())` on each of the five
entries; if any raises `ValueError` the whole `try` block aborts and the
`except ValueError` arm shows a modal error dialog.  We embed each field's
parse result as an `Option ℝ` (`none` = the text does not parse as a
float) and the outcome as either a plotted trajectory or an error dialog
with the title and message from line 94. -/

/-- Parse results of the five entry fields, in the dict order
`AU, EM_DIST, YEAR, MONTH, SCALE`. -/
structure FormInput where
  au : Option ℝ
  em_dist : Option ℝ
  year : Option ℝ
  month : Option ℝ
  scale : Option ℝ

/-- What one press of the plot button does: either a trajectory is
computed and plotted, or a modal error dialog (title, message) is shown. -/
inductive CalcOutcome where
  | plotted : Trajectory → CalcOutcome
  | errorDialog : String → String → CalcOutcome

/-- The form handler `calculate_and_plot` on the parse results: if all five fields parse,
build the parameters and compute the trajectory; otherwise the
`except ValueError` arm runs `messagebox.showerror(...)` (lines 93-94) and
nothing else happens. -/
noncomputable def calculate_and_plot (f : FormInput) : CalcOutcome :=
  match f.au, f.em_dist, f.year, f.month, f.scale with
  | some a, some e, some y, some m, some s =>
      .plotted (trajectory ⟨a, e, y, m, s⟩)
  | _, _, _, _, _ =>
      .errorDialog "输入错误" "请确保所有输入项都是有效的数字！"

/-! GUI defaults of (`create_gui`, lines 107-113) -/

/-- The `config_items` list from `create_gui` (lines 107-113):
label, dict key, and default text of each of the five entry fields. -/
def config_items : List (String × String × String) :=
  [("日地平均距离 (km):", "AU", "149600000"),
   ("地月平均距离 (km):", "EM_DIST", "384400"),
   ("地球公转周期 (天):", "YEAR", "365.25"),
   ("月球公转周期 (天):", "MONTH", "27.32"),
   ("月球轨迹放大倍数:", "SCALE", "50")]

/-- The default texts the five fields are initialized to
(`entry.insert(0, default)`, line 127). -/
def defaultTexts : List String :=
  config_items.map (fun c => c.2.2)

end MoonOrbit

open MoonOrbit

/-- Claim C2: for any `OrbitParameters`, the generated `earthPath` and
`moonPath` each contain exactly `sampleCount = 10000` points. -/
theorem c2_paths_have_10000_points (p : OrbitParameters) :
    (earthPath p).length = 10000 ∧ (moonPath p).length = 10000 := by
  constructor <;> simp [earthPath, moonPath, sampleCount]

/-- Claim C5: at every sample index, the Earth position lies exactly on
the circle of radius `sunEarthDistance` (`AU`) centered at the origin:
`xe^2 + ye^2 = AU^2`. -/
theorem c5_earth_on_circle (p : OrbitParameters) (i : ℕ) :
    (earthSample p i).1 ^ 2 + (earthSample p i).2 ^ 2 = p.AU ^ 2 := by
  have h := Real.sin_sq_add_cos_sq (omega_e p * sampleTime p i)
  simp only [earthSample, xe, ye]
  nlinarith [h]

/-- Claim C6: the first sample (`t = 0`) has Earth position `(AU, 0)` and
Moon position `(AU + EM_DIST * SCALE, 0)`. -/
theorem c6_first_sample (p : OrbitParameters) :
    earthSample p 0 = (p.AU, 0) ∧
      moonSample p 0 = (p.AU + p.EM_DIST * p.SCALE, 0) := by
  have ht : sampleTime p 0 = 0 := by simp [sampleTime]
  constructor
  · simp [earthSample, xe, ye, ht]
  · simp [moonSample, xm, ym, xe, ye, ht]

/-- Claim C1: for positive `YEAR_DAYS` and `MONTH_DAYS`, at each sample
time the angular rates are `2π / YEAR_DAYS` and `2π / MONTH_DAYS`, the
Earth position is `(AU·cos(earthRate·t), AU·sin(earthRate·t))`, and the
Moon position is the Earth position plus
`(EM_DIST·SCALE)·(cos(moonRate·t), sin(moonRate·t))`. -/
theorem c1_trajectory_formulas (p : OrbitParameters)
    (hY : 0 < p.YEAR_DAYS) (hM : 0 < p.MONTH_DAYS) (i : ℕ) :
    earthSample p i =
      (p.AU * Real.cos (2 * Real.pi / p.YEAR_DAYS * sampleTime p i),
       p.AU * Real.sin (2 * Real.pi / p.YEAR_DAYS * sampleTime p i)) ∧
    moonSample p i =
      ((earthSample p i).1 +
         (p.EM_DIST * p.SCALE) * Real.cos (2 * Real.pi / p.MONTH_DAYS * sampleTime p i),
       (earthSample p i).2 +
         (p.EM_DIST * p.SCALE) * Real.sin (2 * Real.pi / p.MONTH_DAYS * sampleTime p i)) :=
  ⟨rfl, rfl⟩

/-- Witness for C1 at the spec's scenario parameters. -/
theorem c1_trajectory_formulas_witness :
    earthSample demoParams 0 =
      (demoParams.AU * Real.cos (2 * Real.pi / demoParams.YEAR_DAYS * sampleTime demoParams 0),
       demoParams.AU * Real.sin (2 * Real.pi / demoParams.YEAR_DAYS * sampleTime demoParams 0)) :=
  (c1_trajectory_formulas demoParams (by norm_num [demoParams])
    (by norm_num [demoParams]) 0).1

/-- Claim C3: for positive `YEAR_DAYS`, the sequence of sample times has
10000 elements, is strictly increasing, has all consecutive differences
equal to `YEAR_DAYS / 9999`, starts at 0, and ends at `YEAR_DAYS`. -/
theorem c3_sample_times (p : OrbitParameters) (hY : 0 < p.YEAR_DAYS) :
    (sampleTimes p).length = 10000 ∧
    (∀ i j : ℕ, i < j → j < 10000 → sampleTime p i < sampleTime p j) ∧
    (∀ i : ℕ, i + 1 < 10000 →
      sampleTime p (i + 1) - sampleTime p i = p.YEAR_DAYS / 9999) ∧
    sampleTime p 0 = 0 ∧
    sampleTime p 9999 = p.YEAR_DAYS := by
  refine ⟨by simp [sampleTimes], ?_, ?_, by simp [sampleTime], ?_⟩
  · intro i j hij _
    simp only [sampleTime]
    have hc : (i : ℝ) < (j : ℝ) := by exact_mod_cast hij
    exact mul_lt_mul_of_pos_left hc (by positivity)
  · intro i _
    simp only [sampleTime]
    push_cast
    ring
  · simp only [sampleTime]
    push_cast
    exact div_mul_cancel₀ _ (by norm_num)

/-- Witness for C3 at the spec's scenario parameters. -/
theorem c3_sample_times_witness :
    sampleTime demoParams 9999 = demoParams.YEAR_DAYS :=
  (c3_sample_times demoParams (by norm_num [demoParams])).2.2.2.2

/-- The Earth-Moon separation is `EM_DIST * SCALE` whenever that product
is nonnegative (the offset components are `EM_DIST·SCALE·cos` and
`EM_DIST·SCALE·sin` of the same angle). -/
theorem earthMoonSep_eq (p : OrbitParameters) (h : 0 ≤ p.EM_DIST * p.SCALE)
    (t : ℝ) : earthMoonSep p t = p.EM_DIST * p.SCALE := by
  have hsq : (xm p t - xe p t) ^ 2 + (ym p t - ye p t) ^ 2 =
      (p.EM_DIST * p.SCALE) ^ 2 := by
    simp only [xm, ym]
    ring_nf
    linear_combination (p.EM_DIST * p.SCALE) ^ 2 *
      Real.sin_sq_add_cos_sq (omega_m p * t)
  rw [earthMoonSep, hsq, Real.sqrt_sq h]

/-- Claim C4: for positive `EM_DIST` and `SCALE` the Earth-to-Moon vector
has magnitude exactly `EM_DIST * SCALE` at every sample; in particular,
for the scenario parameters the separation is 384400·50 = 19220000 at
every sample. -/
theorem c4_separation_constant :
    (∀ p : OrbitParameters, 0 < p.EM_DIST → 0 < p.SCALE → ∀ i : ℕ,
        earthMoonSep p (sampleTime p i) = p.EM_DIST * p.SCALE) ∧
    (∀ i : ℕ, earthMoonSep demoParams (sampleTime demoParams i) = 19220000) := by
  have key : ∀ p : OrbitParameters, 0 < p.EM_DIST → 0 < p.SCALE → ∀ i : ℕ,
      earthMoonSep p (sampleTime p i) = p.EM_DIST * p.SCALE := by
    intro p hE hS i
    exact earthMoonSep_eq p (le_of_lt (mul_pos hE hS)) _
  refine ⟨key, fun i => ?_⟩
  have h := key demoParams (by norm_num [demoParams]) (by norm_num [demoParams]) i
  rw [h]
  norm_num [demoParams]

/-- Witness for C4 at the scenario parameters and sample 0. -/
theorem c4_separation_constant_witness :
    earthMoonSep demoParams (sampleTime demoParams 0) =
      demoParams.EM_DIST * demoParams.SCALE :=
  c4_separation_constant.1 demoParams (by norm_num [demoParams])
    (by norm_num [demoParams]) 0

/-- The Moon's offset from the Earth in closed form. -/
theorem moonOffset_eq (p : OrbitParameters) (t : ℝ) :
    moonOffset p t = ((p.EM_DIST * p.SCALE) * Real.cos (omega_m p * t),
                      (p.EM_DIST * p.SCALE) * Real.sin (omega_m p * t)) := by
  simp [moonOffset, xm, ym]

/-- Claim C7: with `MONTH_DAYS = YEAR_DAYS` (and a positive year), the
Moon's offset vector from the Earth at the first sample equals its offset
vector at the last sample (`t = YEAR_DAYS`). -/
theorem c7_offset_full_revolution (p : OrbitParameters)
    (hY : 0 < p.YEAR_DAYS) (hM : p.MONTH_DAYS = p.YEAR_DAYS) :
    moonOffset p (sampleTime p 0) = moonOffset p (sampleTime p 9999) := by
  have h0 : sampleTime p 0 = 0 := by simp [sampleTime]
  have h9 : sampleTime p 9999 = p.YEAR_DAYS := by
    simp only [sampleTime]
    push_cast
    exact div_mul_cancel₀ _ (by norm_num)
  have hang : omega_m p * p.YEAR_DAYS = 2 * Real.pi := by
    rw [omega_m, hM]
    field_simp
  rw [moonOffset_eq, moonOffset_eq, h0, h9, hang]
  simp

/-- Witness for C7: parameters with a 365.25-day month and year. -/
theorem c7_offset_full_revolution_witness :
    moonOffset ⟨1, 1, 365.25, 365.25, 1⟩
        (sampleTime ⟨1, 1, 365.25, 365.25, 1⟩ 0) =
      moonOffset ⟨1, 1, 365.25, 365.25, 1⟩
        (sampleTime ⟨1, 1, 365.25, 365.25, 1⟩ 9999) :=
  c7_offset_full_revolution ⟨1, 1, 365.25, 365.25, 1⟩ (by norm_num) rfl

/-- Claim C8: if at least one of the five fields fails to parse as a
number, the submission produces exactly the modal error dialog of
line 94, and no trajectory is produced (the generator is not invoked). -/
theorem c8_validation_blocks_generator (f : FormInput)
    (h : f.au = none ∨ f.em_dist = none ∨ f.year = none ∨
         f.month = none ∨ f.scale = none) :
    calculate_and_plot f =
      .errorDialog "输入错误" "请确保所有输入项都是有效的数字！" ∧
    ∀ traj : Trajectory, calculate_and_plot f ≠ .plotted traj := by
  have h1 : calculate_and_plot f =
      .errorDialog "输入错误" "请确保所有输入项都是有效的数字！" := by
    rcases f with ⟨au, em, y, m, s⟩
    rcases au with _ | a <;> rcases em with _ | e <;> rcases y with _ | y1 <;>
      rcases m with _ | m1 <;> rcases s with _ | s1 <;>
      simp_all [calculate_and_plot]
  refine ⟨h1, fun traj hc => ?_⟩
  rw [h1] at hc
  exact CalcOutcome.noConfusion hc

/-- Witness for C8: the `AU` field does not parse. -/
theorem c8_validation_blocks_generator_witness :
    calculate_and_plot ⟨none, some 384400, some 365.25, some 27.32, some 50⟩ =
      .errorDialog "输入错误" "请确保所有输入项都是有效的数字！" :=
  (c8_validation_blocks_generator
    ⟨none, some 384400, some 365.25, some 27.32, some 50⟩ (Or.inl rfl)).1

/-- Counterexample to C9 as stated: the Sun-Earth distance field's
default in `config_items` is the text "149600000", not "150000000". -/
theorem c9_defaults_counterexample :
    defaultTexts ≠ ["150000000", "384400", "365.25", "27.32", "50"] ∧
    defaultTexts = ["149600000", "384400", "365.25", "27.32", "50"] := by
  constructor
  · intro h
    have := congrArg (fun l => l.headI) h
    simp [defaultTexts, config_items] at this
  · rfl

/-- Claim C9 (amended): on launch the five fields are initialized to the
defaults 149 600 000 km, 384 400 km, 365.25 days, 27.32 days, scale 50,
in that order. -/
theorem c9_defaults_amended :
    defaultTexts = ["149600000", "384400", "365.25", "27.32", "50"] ∧
    config_items.map (fun c => c.2.1) =
      ["AU", "EM_DIST", "YEAR", "MONTH", "SCALE"] :=
  ⟨rfl, rfl⟩

/-- Claim C10: the trajectory computation is deterministic: equal
parameter values give identical `earthPath` and `moonPath` sequences. -/
theorem c10_deterministic (p q : OrbitParameters)
    (hAU : p.AU = q.AU) (hEM : p.EM_DIST = q.EM_DIST)
    (hY : p.YEAR_DAYS = q.YEAR_DAYS) (hM : p.MONTH_DAYS = q.MONTH_DAYS)
    (hS : p.SCALE = q.SCALE) :
    earthPath p = earthPath q ∧ moonPath p = moonPath q := by
  have hpq : p = q := by
    cases p
    cases q
    simp_all
  rw [hpq]
  exact ⟨rfl, rfl⟩

/-- Witness for C10 at the scenario parameters. -/
theorem c10_deterministic_witness :
    earthPath demoParams = earthPath demoParams ∧
    moonPath demoParams = moonPath demoParams :=
  c10_deterministic demoParams demoParams rfl rfl rfl rfl rfl
